import Mathlib

/-!
# A shallow embedding of `pytex.py` (pytex: a Python interface to writing LaTeX documents)

This file embeds the data model and the operations of `src/pytex.py` in Lean 4
and proves properties of the embedded program.

Modelling conventions:
* Python strings become `String`; literal braces in string literals are written
  with the hexadecimal escapes `\x7b` and `\x7d`.
* Python `None`-able strings become `Option String`.  Python truthiness of a
  string is non-emptiness, captured by `truthyOpt` below.
* Python in-place list mutation (`list.remove`, `list.append`, `list.insert`)
  is embedded by store passing: a function that mutates `self.options` takes
  the current contents of that list and returns the new contents.  This makes
  the aliasing of the module-level `DEFAULT_OPTIONS` / `DEFAULT_PACKAGES`
  lists by default-constructed `LaTeXDocument` instances expressible: the
  list contents returned by one use are the contents seen by the next
  default-constructed use.
* Raising an exception is embedded with `Except` / an `Option String` error
  component; sequential statements stop at the first error, exactly as
  the exception propagation of Python does (there is no `try`/`finally` anywhere
  in the source).
* Filesystem facts (`os.path.isdir`, `os.path.isfile`) are embedded by an
  abstract filesystem `FS` listing the existing directories and files.
-/

set_option autoImplicit false

/-- A LaTeX argument, the input of `formatarg`: Python `str`, or a
`dict` of the shape `\x7b"value": str, "options": [str, ...]\x7d`. -/
inductive Arg where
  /-- a plain Python `str` argument -/
  | bare (label : String)
  /-- a Python `dict` with the `"value"` and `"options"` keys -/
  | withOptions (value : String) (options : List String)
deriving DecidableEq, Repr

/-- Embeds `formatarg` (src/pytex.py lines 51-67):
`"[%s]\x7b%s\x7d" % (", ".join(arg["options"]), arg["value"])` for a dict,
`"\x7b%s\x7d" % arg` for a plain string. -/
def formatarg : Arg → String
  | .withOptions v opts => "[" ++ String.intercalate ", " opts ++ "]\x7b" ++ v ++ "\x7d"
  | .bare s => "\x7b" ++ s ++ "\x7d"

/-- Python truthiness of an optional string: `None` and `""` are falsy. -/
def truthyOpt : Option String → Bool
  | none => false
  | some s => !s.isEmpty

/-- One call to a writing method of the `TeXFile` command emitter
(src/pytex.py lines 69-215).  The `includecmd` constructor embeds the
`include` method (`include` is a Lean keyword).  `write` and `writelines`
take the line terminator explicitly (the Python default is `"\n"`). -/
inductive EmitterCall where
  | documentclass (dc : String) (options : List String)
  | beginDocument
  | endDocument
  | author (a : String)
  | title (t : Arg)
  | maketitle
  | newpage
  | clearpage
  | usepackage (p : Arg)
  | usepackages (ps : List Arg)
  | write (line : String) (endstr : String)
  | writelines (lines : List String) (endstr : String)
  | display (math : String)
  | equation (math : String) (label : Option String) (tag : Option String) (numbered : Bool)
  | quote (lines : List String)
  | quotation (lines : List String)
  | figure
  | tabular
  | input (name : String)
  | includecmd (name : String)
  | includeonly (names : List String)
  | tableofcontents
  | printbibliography
deriving DecidableEq, Repr

/-- The text written to the underlying file by one emitter call, or the
message of the `NotImplementedError` the call raises.  Each case is the
direct embedding of the corresponding `TeXFile` method body. -/
def emitCall : EmitterCall → Except String String
  | .documentclass dc options =>
      .ok (if options.isEmpty then "\\documentclass\x7b" ++ dc ++ "\x7d\n"
           else "\\documentclass[" ++ String.intercalate ", " options ++ "]\x7b" ++ dc ++ "\x7d\n")
  | .beginDocument => .ok "\\begin\x7bdocument\x7d\n"
  | .endDocument => .ok "\\end\x7bdocument\x7d\n"
  | .author a => .ok ("\\author\x7b" ++ a ++ "\x7d\n")
  | .title t => .ok ("\\title" ++ formatarg t ++ "\n")
  | .maketitle => .ok "\\maketitle\n"
  | .newpage => .ok "\\newpage\n"
  | .clearpage => .ok "\\clearpage\n"
  | .usepackage p => .ok ("\\usepackage" ++ formatarg p ++ "\n")
  | .usepackages ps => .ok (String.join (ps.map (fun p => "\\usepackage" ++ formatarg p ++ "\n")))
  | .write line endstr => .ok (line ++ endstr)
  | .writelines lines endstr => .ok (String.join (lines.map (fun l => l ++ endstr)))
  | .display math => .ok ("\\[ " ++ math ++ " \\]\n")
  | .equation math label tag numbered =>
      .ok (if numbered then
             "\\begin\x7bequation\x7d\n"
             ++ (if truthyOpt label then
                   "\\label\x7b" ++ label.getD "" ++ "\x7d\n"
                   ++ (if truthyOpt tag then "\\tag\x7b" ++ tag.getD "" ++ "\x7d\n" else "")
                 else "")
             ++ math ++ "\n"
             ++ "\\end\x7bequation\x7d\n"
           else
             "\\begin\x7bequation*\x7d\n"
             ++ (if truthyOpt label then "\\label\x7b" ++ label.getD "" ++ "\x7d\n" else "")
             ++ math ++ "\n"
             ++ "\\end\x7bequation*\x7d\n")
  | .quote lines =>
      .ok ("\\begin\x7bquote\x7d\n"
           ++ String.join (lines.map (fun l => l ++ "\n"))
           ++ "\\end\x7bquote\x7d\n")
  | .quotation lines =>
      .ok ("\\begin\x7bquotation\x7d\n"
           ++ String.join (lines.map (fun l => l ++ "\n"))
           ++ "\\end\x7bquotation\x7d\n")
  | .figure => .error "Figure this out"
  | .tabular => .error "Figure this out"
  | .input name => .ok ("\\input\x7b" ++ name ++ "\x7d\n")
  | .includecmd name => .ok ("\\include\x7b" ++ name ++ "\x7d\n")
  | .includeonly _ => .error "includeonly not yet implemented"
  | .tableofcontents => .ok "\\tableofcontents\n"
  | .printbibliography => .ok "\\printbibliography\n"

/-- Whether an emitter call is a supported operation (does not raise). -/
def supported (c : EmitterCall) : Bool :=
  match emitCall c with
  | .ok _ => true
  | .error _ => false

/-- The text appended by a supported call (and `""` on the raising calls,
which never append; see `emitCall` for the authoritative definition). -/
def renderCall (c : EmitterCall) : String :=
  match emitCall c with
  | .ok t => t
  | .error _ => ""

/-- Run a sequence of emitter calls against a stream holding `stream` so
far.  Returns the final stream contents and, if some call raised, the
message of the first raised error (execution stops there, as in Python). -/
def runCalls (stream : String) : List EmitterCall → String × Option String
  | [] => (stream, none)
  | c :: cs =>
    match emitCall c with
    | .ok t => runCalls (stream ++ t) cs
    | .error e => (stream, some e)

/-- Plain left-to-right concatenation of a list of text fragments. -/
def concatTexts : List String → String
  | [] => ""
  | t :: ts => t ++ concatTexts ts

/-- The module-level `DEFAULT_OPTIONS` list (src/pytex.py lines 22-29):
the initial contents of the single shared mutable list that is the default
value of the `options` parameter of `LaTeXDocument.__init__`. -/
def DEFAULT_OPTIONS : List String :=
  ["a4paper", "oneside", "onecolumn", "notitlepage", "reqno", "UKenglish"]

/-- The module-level `DEFAULT_PACKAGES` list (src/pytex.py lines 33-43):
the initial contents of the single shared mutable list that is the default
value of the `usepackages` parameter of `LaTeXDocument.__init__`. -/
def DEFAULT_PACKAGES : List Arg :=
  [.withOptions "inputenc" ["utf8"],
   .withOptions "fontenc" ["T1"],
   .bare "textcomp",
   .bare "lmodern",
   .bare "microtype",
   .bare "babel",
   .bare "varioref",
   .withOptions "hyperref" ["pdftex"],
   .withOptions "cleveref" ["capitalize", "nameinlink", "noabbrev"]]

/-- The tuple of font-size and column tokens that `_parseoptions` strips
(src/pytex.py line 280), in iteration order. -/
def sizeColTokens : List String := ["10pt", "11pt", "12pt", "onecolumn", "twocolumn"]

/-- The stripping loop of `_parseoptions` (src/pytex.py lines 280-282):
for each token in order, `if opt in self.options: self.options.remove(opt)`.
The Python `list.remove` deletes only the first occurrence, which is exactly
`List.erase`. -/
def stripTokens (options : List String) : List String :=
  sizeColTokens.foldl (fun acc opt => if opt ∈ acc then acc.erase opt else acc) options

/-- Embeds `LaTeXDocument._parseoptions` (src/pytex.py lines 277-290).
The first component is the contents of the (mutated in place) `self.options`
list when the method returns or raises; the second is the message of the
raised `ValueError`, if any.  Note that the `"\x7bfontsize\x7dpt"` append happens
before the column check, so the mutation is visible even on the error path. -/
def parseoptions (options : List String) (fontsize : Int) (columns : Int) :
    List String × Option String :=
  let opts := stripTokens options ++ [toString fontsize ++ "pt"]
  if columns = 1 then (opts ++ ["onecolumn"], none)
  else if columns = 2 then (opts ++ ["twocolumn"], none)
  else (opts, some ("Unrecognized column specifier: " ++ toString columns))

/-- The non-list configuration fields of `LaTeXDocument.__init__`
(src/pytex.py lines 225-275).  The `options` and `usepackages` list
arguments are passed separately, as list contents, because their aliasing
with the shared defaults matters. -/
structure Config where
  title : Option String
  author : Option String
  documentclass : String
  preamble : List String
  fontsize : Int
  columns : Int
  fullpage : Bool
  ncompile : Nat
  dst : Option String
  overwrite : Bool
deriving DecidableEq, Repr

/-- Result of `_writepreamble`: the new contents of the aliased `options`
and `usepackages` lists, the preamble text written to the stream, and the
message of the raised error, if any. -/
structure PreambleResult where
  newOptions : List String
  newPackages : List Arg
  text : String
  err : Option String
deriving DecidableEq, Repr

/-- Embeds `LaTeXDocument._writepreamble` (src/pytex.py lines 292-307).
It first calls `_parseoptions` (mutating `self.options`); if that raises,
nothing is written.  Otherwise, if `fullpage` is set and the string
`"fullpage"` is not in the package list (a Python `in` test: a dict never
equals a str, so only `Arg.bare "fullpage"` counts), it is inserted at
index 0; then the documentclass line, the package lines, the verbatim
preamble lines, optional title/author, `\begin\x7bdocument\x7d` and an optional
`\maketitle` are written. -/
def writepreamble (cfg : Config) (options : List String) (packages : List Arg) :
    PreambleResult :=
  match parseoptions options cfg.fontsize cfg.columns with
  | (opts, some e) => ⟨opts, packages, "", some e⟩
  | (docopts, none) =>
    let pkgs := if cfg.fullpage && !(packages.contains (Arg.bare "fullpage"))
                then Arg.bare "fullpage" :: packages else packages
    let text :=
      renderCall (.documentclass cfg.documentclass docopts)
      ++ renderCall (.usepackages pkgs)
      ++ renderCall (.writelines cfg.preamble "\n")
      ++ (if truthyOpt cfg.title then renderCall (.title (.bare (cfg.title.getD ""))) else "")
      ++ (if truthyOpt cfg.author then renderCall (.author (cfg.author.getD "")) else "")
      ++ renderCall .beginDocument
      ++ (if truthyOpt cfg.title then renderCall .maketitle else "")
    ⟨docopts, pkgs, text, none⟩

/-- An abstract filesystem: which paths are existing directories and which
are existing files.  `os.path.isdir` and `os.path.isfile` read it. -/
structure FS where
  dirs : List String
  files : List String
deriving DecidableEq, Repr

/-- Embedding of `os.path.isdir` against the abstract filesystem. -/
def FS.isdir (fs : FS) (p : String) : Bool := fs.dirs.contains p

/-- Embedding of `os.path.isfile` against the abstract filesystem. -/
def FS.isfile (fs : FS) (p : String) : Bool := fs.files.contains p

/-- Character-level worker for `pythonReplace`: scan left to right; on a
match of `pat`, emit `rep` and skip past the match; otherwise copy one
character.  The fuel argument (initially the length of the scanned list)
makes the recursion structural; it never runs out because every step
consumes at least one character when `pat` is non-empty. -/
def replaceAux (pat rep : List Char) : Nat → List Char → List Char
  | _, [] => []
  | 0, l => l
  | n + 1, c :: cs =>
    if pat.isPrefixOf (c :: cs) then
      rep ++ replaceAux pat rep n (List.drop (pat.length - 1) cs)
    else c :: replaceAux pat rep n cs

/-- Embedding of the Python `str.replace`: replace every non-overlapping
occurrence of `pat`, scanning left to right (with an empty pattern the
Python result on these inputs is the unchanged string, matching the guard
here). -/
def pythonReplace (s pat rep : String) : String :=
  if pat.data.isEmpty then s
  else ⟨replaceAux pat.data rep.data s.data.length s.data⟩

/-- Embedding of `os.path.basename`: the part of the path after the last
`"/"` (CPython: `p[p.rfind(sep) + 1:]`). -/
def basename (p : String) : String :=
  ⟨(p.data.reverse.takeWhile (fun c => c ≠ '/')).reverse⟩

/-- Whether `s` starts with `pat`, on the character lists. -/
def strStartsWith (s pat : String) : Bool := pat.data.isPrefixOf s.data

/-- Whether `s` ends with `pat`, on the character lists. -/
def strEndsWith (s pat : String) : Bool := pat.data.isSuffixOf s.data

/-- Embedding of `os.path.join a b` for one join: `b` if `b` is absolute, otherwise `a`
and `b` separated by exactly one `"/"`. -/
def joinpath (a b : String) : String :=
  if strStartsWith b "/" then b
  else if a = "" || strEndsWith a "/" then a ++ b
  else a ++ "/" ++ b

/-- The artifact name bound to `pdfname` in the desktop and directory
branches of `_movepdf`:
`os.path.basename(self._mainfile.name).replace(".tex", ".pdf")`. -/
def artifactname (mainfile : String) : String :=
  pythonReplace (basename mainfile) ".tex" ".pdf"

/-- What `_movepdf` did: either it moved (`shutil.move`) the artifact from
`src` to `target`, or it raised the `IOError` with the offending path. -/
inductive MoveResult where
  /-- `shutil.move src target` was executed -/
  | moved (src : String) (target : String)
  /-- `IOError("... already exists, instructed not to overwrite")` raised -/
  | alreadyExistsError (target : String)
deriving DecidableEq, Repr

/-- Embeds `LaTeXDocument._movepdf` (src/pytex.py lines 316-354).
`mainfile` is `self._mainfile.name` (the absolute path of the generated
`.tex` file) and `desktop` the result of `getdesktop()`.  A `dst` of
`none` — and also `some ""`, since Python tests `if self.dst:` — selects
the desktop branch. -/
def movepdf (fs : FS) (dst : Option String) (overwrite : Bool)
    (mainfile desktop : String) : MoveResult :=
  let desktopBranch : MoveResult :=
    if fs.isfile (joinpath desktop (artifactname mainfile)) && !overwrite then
      .alreadyExistsError (joinpath desktop (artifactname mainfile))
    else .moved (artifactname mainfile) (joinpath desktop (artifactname mainfile))
  match dst with
  | none => desktopBranch
  | some d =>
    if d = "" then desktopBranch
    else if fs.isdir d then
      if fs.isfile (joinpath d (artifactname mainfile)) && !overwrite then
        .alreadyExistsError (joinpath d (artifactname mainfile))
      else .moved (artifactname mainfile) (joinpath d (artifactname mainfile))
    else if fs.isfile d then
      if overwrite then .moved (pythonReplace mainfile ".tex" ".pdf") d
      else .alreadyExistsError d
    else .moved (pythonReplace mainfile ".tex" ".pdf") d

/-- Effect of a `MoveResult` on the abstract filesystem: a raised error
changes nothing; a move removes the source file entry and creates the
target file entry. -/
def applyMove (fs : FS) : MoveResult → FS
  | .alreadyExistsError _ => fs
  | .moved src target => ⟨fs.dirs, target :: fs.files.erase src⟩

/-- One `subprocess.call` invocation: its argument vector and the process
working directory it ran in. -/
structure Invocation where
  args : List String
  cwd : String
deriving DecidableEq, Repr

/-- Embeds `LaTeXDocument._compilepdf` (src/pytex.py lines 309-314):
`os.chdir(self._tmpdir.name)`, then `ncompile` times
`subprocess.call(["pdflatex", self._mainfile.name])`.  `exitStatus i` is
the status returned by the i-th `subprocess.call`; the loop discards it.
Returns the new process working directory and the invocation trace. -/
def compilepdf (tmpdir mainfile : String) (ncompile : Nat)
    (exitStatus : Nat → Int) : String × List Invocation :=
  (tmpdir,
   (List.range ncompile).map (fun i =>
     let _ := exitStatus i
     ⟨["pdflatex", mainfile], tmpdir⟩))

/-- Process-wide state observable around one `LaTeXDocument` scoped use:
working directory, whether the temporary workspace directory still exists,
the external filesystem, the `subprocess.call` trace, the contents of the
generated `.tex` stream, and whether that stream has been closed. -/
structure DocState where
  cwd : String
  tmpdirExists : Bool
  fs : FS
  invocations : List Invocation
  stream : String
  streamClosed : Bool
deriving DecidableEq, Repr

/-- Embeds `LaTeXDocument.__exit__` (src/pytex.py lines 369-375) as the
sequence `endDocument(); close(); _compilepdf(); _movepdf();
_tmpdir.cleanup()`.  There is no `try`/`finally`: a raise in `_movepdf`
propagates immediately, so the `cleanup()` statement on line 375 is reached
only when `_movepdf` returned normally.  The error value carries the
process state at the moment the exception propagates. -/
def docExit (cfg : Config) (tmpdir mainfile desktop : String)
    (exitStatus : Nat → Int) (s : DocState) : Except (String × DocState) DocState :=
  let stream1 := s.stream ++ renderCall .endDocument
  let c := compilepdf tmpdir mainfile cfg.ncompile exitStatus
  let s2 : DocState := ⟨c.1, s.tmpdirExists, s.fs, s.invocations ++ c.2, stream1, true⟩
  match movepdf s.fs cfg.dst cfg.overwrite mainfile desktop with
  | .alreadyExistsError p =>
      .error (p ++ " already exists, instructed not to overwrite", s2)
  | .moved src tgt =>
      .ok ⟨s2.cwd, false, applyMove s2.fs (.moved src tgt), s2.invocations, s2.stream,
           s2.streamClosed⟩

/-- Outcome of `LaTeXDocument.__enter__` (src/pytex.py lines 356-367): the
`TemporaryDirectory` and the `NamedTemporaryFile` inside it are created
first (lines 357-364), then `_writepreamble` runs; if it raises, the
exception propagates out of `__enter__` with the directory and file
already in existence. -/
structure EnterOutcome where
  tmpdirExists : Bool
  mainfileExists : Bool
  stream : String
  newOptions : List String
  newPackages : List Arg
  err : Option String
deriving DecidableEq, Repr

/-- Embeds `LaTeXDocument.__enter__`. -/
def docEnter (cfg : Config) (options : List String) (packages : List Arg) : EnterOutcome :=
  let p := writepreamble cfg options packages
  ⟨true, true, p.text, p.newOptions, p.newPackages, p.err⟩

/-- Final observable state of one full `with LaTeXDocument(...) as doc:`
block plus the exception that escaped it, if any.  Per Python semantics,
when `__enter__` raises, `__exit__` is never invoked; when the body raises,
`__exit__` still runs (and an exception raised inside `__exit__` itself
replaces the one from the body). -/
def withDocument (cfg : Config) (options : List String) (packages : List Arg)
    (bodyCalls : List EmitterCall) (tmpdir mainfile desktop initialCwd : String)
    (fs : FS) (exitStatus : Nat → Int) : DocState × Option String :=
  let e := docEnter cfg options packages
  match e.err with
  | some msg => (⟨initialCwd, e.tmpdirExists, fs, [], e.stream, false⟩, some msg)
  | none =>
    let r := runCalls e.stream bodyCalls
    let s0 : DocState := ⟨initialCwd, true, fs, [], r.1, false⟩
    match docExit cfg tmpdir mainfile desktop exitStatus s0 with
    | .ok s => (s, r.2)
    | .error (msg, s) => (s, some msg)


/-! ## Concrete instances used by witnesses and counterexamples -/

/-- A small body: a representative sequence of supported emitter calls. -/
def exampleCalls : List EmitterCall :=
  [.beginDocument, .author "Simon Foldvik", .display "1 + 1 = 2", .endDocument]

/-- A configuration with `fullpage=True` and otherwise default settings. -/
def cfgFullpage : Config := ⟨none, none, "amsart", [], 11, 1, true, 2, none, false⟩

/-- A configuration with entirely default settings (`fullpage=False`). -/
def cfgPlain : Config := ⟨none, none, "amsart", [], 11, 1, false, 2, none, false⟩

/-- A configuration whose destination is an existing file and whose
overwrite policy is the default `False`. -/
def cfgConflict : Config :=
  ⟨none, none, "amsart", [], 11, 1, false, 2, some "/existing.pdf", false⟩

/-- A filesystem on which `/existing.pdf` is an existing file. -/
def fsConflict : FS := ⟨[], ["/existing.pdf"]⟩

/-- Process state of an entered scope over `fsConflict`. -/
def stOpen : DocState := ⟨"/home/simon", true, fsConflict, [], "BODY", false⟩

/-- The process state at the moment the destination-conflict `IOError`
propagates out of `__exit__` for `cfgConflict`/`stOpen`: the workspace
`/ws` still exists and the working directory is `/ws`. -/
def sErrConflict : DocState :=
  ⟨"/ws", true, fsConflict,
   [⟨["pdflatex", "/ws/pytex_d.tex"], "/ws"⟩, ⟨["pdflatex", "/ws/pytex_d.tex"], "/ws"⟩],
   "BODY\\end\x7bdocument\x7d\n", true⟩

/-- A configuration whose destination is a fresh path (no conflict). -/
def cfgFresh : Config :=
  ⟨none, none, "amsart", [], 11, 1, false, 1, some "/out/doc.pdf", false⟩

/-- Process state of an entered scope over an empty filesystem. -/
def stOpen2 : DocState := ⟨"/home/simon", true, ⟨[], []⟩, [], "BODY", false⟩

/-- The process state after a fully successful `__exit__` for
`cfgFresh`/`stOpen2`: the workspace is gone but the working directory
still names it. -/
def sOkFresh : DocState :=
  ⟨"/ws", false, ⟨[], ["/out/doc.pdf"]⟩,
   [⟨["pdflatex", "/ws/pytex_d.tex"], "/ws"⟩],
   "BODY\\end\x7bdocument\x7d\n", true⟩

/-- A configuration with the invalid column count 3. -/
def cfgBadColumns : Config := ⟨none, none, "amsart", [], 11, 3, false, 2, none, false⟩

/-- A filesystem with an existing directory `/outdir` already containing
the artifact name `pytex_doc.pdf`. -/
def fsDir : FS := ⟨["/outdir"], ["/outdir/pytex_doc.pdf"]⟩

/-! ## Helper lemmas -/

/-- When `x` occurs at most once in `l`, the guarded single-occurrence
removal performed by the `_parseoptions` loop body agrees with removing
every occurrence of `x`. -/
theorem eraseIfMem_eq_filter (x : String) (l : List String) (h : l.count x ≤ 1) :
    (if x ∈ l then l.erase x else l) = l.filter (fun o => o != x) := by
  induction l with
  | nil => simp
  | cons a t ih =>
    by_cases hax : a = x
    · subst hax
      have ht : t.count a = 0 := by
        have hc : (a :: t).count a = t.count a + 1 := List.count_cons_self a t
        omega
      have hnm : a ∉ t := List.count_eq_zero.mp ht
      have hfilter : t.filter (fun o => o != a) = t :=
        List.filter_eq_self.mpr (fun b hb => by
          simp only [bne_iff_ne, ne_eq, decide_eq_true_eq]
          exact fun hba => hnm (hba ▸ hb))
      simp [List.erase_cons_head, hfilter]
    · have hcount : t.count x ≤ 1 := by
        have : (a :: t).count x = t.count x :=
          List.count_cons_of_ne (by exact fun hxa => hax hxa.symm) t
        omega
      have ih' := ih hcount
      by_cases hxt : x ∈ t
      · have hmem : x ∈ a :: t := List.mem_cons_of_mem a hxt
        rw [if_pos hmem, List.erase_cons_tail (by simp [hax])]
        rw [if_pos hxt] at ih'
        rw [List.filter_cons_of_pos (by simp [hax]), ih']
      · have hnmem : x ∉ a :: t := by
          simp only [List.mem_cons, not_or]
          exact ⟨fun hh => hax hh.symm, hxt⟩
        rw [if_neg hnmem, List.filter_cons_of_pos (by simp [hax])]
        rw [if_neg hxt] at ih'
        exact congrArg (List.cons a) ih'

/-- Folding the guarded single-occurrence removal over a token list agrees
with one pass of filtering when every token occurs at most once. -/
theorem foldlStrip_eq_filter (toks : List String) (l : List String)
    (h : ∀ t ∈ toks, l.count t ≤ 1) :
    toks.foldl (fun acc opt => if opt ∈ acc then acc.erase opt else acc) l
      = l.filter (fun o => !(toks.contains o)) := by
  induction toks generalizing l with
  | nil => simp
  | cons t ts ih =>
    rw [List.foldl_cons, eraseIfMem_eq_filter t l (h t (List.mem_cons_self t ts))]
    rw [ih (l.filter (fun o => o != t))
      (fun u hu => le_trans ((List.filter_sublist l).count_le u)
        (h u (List.mem_cons_of_mem t hu)))]
    rw [List.filter_filter]
    apply List.filter_congr
    intro o _
    rcases eq_or_ne o t with rfl | hne
    · simp [List.contains_cons, Bool.not_or, Bool.and_comm]
    · simp [List.contains_cons, Bool.not_or, Bool.and_comm, hne]

/-- Specialisation of `foldlStrip_eq_filter` to the `_parseoptions` loop. -/
theorem stripTokens_eq_filter (l : List String) (h : ∀ t ∈ sizeColTokens, l.count t ≤ 1) :
    stripTokens l = l.filter (fun o => !(sizeColTokens.contains o)) :=
  foldlStrip_eq_filter sizeColTokens l h

/-- With a valid column count, `_parseoptions` raises nothing. -/
theorem parseoptions_ok_of_columns (options : List String) (fontsize columns : Int)
    (h : columns = 1 ∨ columns = 2) :
    (parseoptions options fontsize columns).2 = none := by
  rcases h with h | h
  · simp [parseoptions, h]
  · have h1 : columns ≠ 1 := by omega
    simp [parseoptions, h, h1]

/-- With an invalid column count, `_parseoptions` raises the `ValueError`
after having already mutated the options list. -/
theorem parseoptions_err_of_columns (options : List String) (fontsize columns : Int)
    (h1 : columns ≠ 1) (h2 : columns ≠ 2) :
    parseoptions options fontsize columns =
      (stripTokens options ++ [toString fontsize ++ "pt"],
       some ("Unrecognized column specifier: " ++ toString columns)) := by
  simp [parseoptions, h1, h2]

/-- A supported call emits exactly its rendering. -/
theorem emitCall_of_supported (c : EmitterCall) (h : supported c = true) :
    emitCall c = .ok (renderCall c) := by
  unfold supported at h
  unfold renderCall
  cases he : emitCall c with
  | ok t => rfl
  | error e => rw [he] at h; exact absurd h (by simp)

/-- The preamble writer never removes entries from the shared package
list: membership is preserved into the new list contents. -/
theorem writepreamble_mem_newPackages (cfg : Config) (opts : List String)
    (pkgs : List Arg) (x : Arg) (hx : x ∈ pkgs) :
    x ∈ (writepreamble cfg opts pkgs).newPackages := by
  obtain ⟨o, e, hp⟩ : ∃ o e, parseoptions opts cfg.fontsize cfg.columns = (o, e) :=
    ⟨_, _, rfl⟩
  unfold writepreamble
  rw [hp]
  cases e with
  | some m => simpa using hx
  | none =>
    dsimp only
    split
    · exact List.mem_cons_of_mem _ hx
    · exact hx

/-- When the full-page flag is off, the preamble writer leaves the shared
package list unchanged. -/
theorem writepreamble_newPackages_no_fullpage (cfg : Config) (opts : List String)
    (pkgs : List Arg) (h : cfg.fullpage = false) :
    (writepreamble cfg opts pkgs).newPackages = pkgs := by
  obtain ⟨o, e, hp⟩ : ∃ o e, parseoptions opts cfg.fontsize cfg.columns = (o, e) :=
    ⟨_, _, rfl⟩
  unfold writepreamble
  rw [hp]
  cases e with
  | some m => rfl
  | none => simp [h]

/-! ## Claim theorems -/

/-- C1 (counterexample).  The claim states that the temporary workspace
directory is destroyed at scope exit under every error path, in particular
when relocation raises.  This is false: with an existing destination file
and `overwrite=False`, `__exit__` raises the destination-conflict
`IOError` before reaching `self._tmpdir.cleanup()`, and the workspace
still exists when the exception propagates. -/
theorem cleanup_skipped_counterexample :
    docExit cfgConflict "/ws" "/ws/pytex_d.tex" "/Users/simon/Desktop" (fun _ => 0) stOpen =
      .error ("/existing.pdf already exists, instructed not to overwrite", sErrConflict) ∧
    sErrConflict.tmpdirExists = true :=
  ⟨by rfl, rfl⟩

/-- C1 (amended).  Because `__exit__` runs
`endDocument(); close(); _compilepdf(); _movepdf(); _tmpdir.cleanup()`
sequentially with no `try`/`finally`, the workspace is destroyed at scope
exit exactly when relocation returns normally: on the success path the
temporary directory no longer exists, and on every raising path of
relocation it still exists when the exception propagates out of
`__exit__`. -/
theorem cleanup_only_without_relocation_error (cfg : Config)
    (tmpdir mainfile desktop : String) (es : Nat → Int) (s : DocState)
    (h : s.tmpdirExists = true) :
    (∀ s', docExit cfg tmpdir mainfile desktop es s = .ok s' →
        s'.tmpdirExists = false) ∧
    (∀ msg s', docExit cfg tmpdir mainfile desktop es s = .error (msg, s') →
        s'.tmpdirExists = true) := by
  constructor
  · intro s' hx
    unfold docExit at hx
    rcases hm : movepdf s.fs cfg.dst cfg.overwrite mainfile desktop with ⟨src, tgt⟩ | p
    · rw [hm] at hx
      dsimp only at hx
      cases hx
      rfl
    · rw [hm] at hx
      exact absurd hx (by simp)
  · intro msg s' hx
    unfold docExit at hx
    rcases hm : movepdf s.fs cfg.dst cfg.overwrite mainfile desktop with ⟨src, tgt⟩ | p
    · rw [hm] at hx
      exact absurd hx (by simp)
    · rw [hm] at hx
      dsimp only at hx
      cases hx
      exact h

/-- C1 (witness for the amended theorem), at the concrete
destination-conflict input. -/
theorem cleanup_only_without_relocation_error_witness :
    stOpen.tmpdirExists = true ∧ sErrConflict.tmpdirExists = true :=
  ⟨rfl,
   (cleanup_only_without_relocation_error cfgConflict "/ws" "/ws/pytex_d.tex"
      "/Users/simon/Desktop" (fun _ => 0) stOpen rfl).2
     "/existing.pdf already exists, instructed not to overwrite" sErrConflict (by rfl)⟩

/-- C2.  Relocation resolves the target path by four branches: with no
destination, the target is desktop/artifact-name; with a destination that
is an existing directory, destination/artifact-name; with a destination
that is an existing file, the artifact replaces it exactly when overwrite
is true; otherwise the artifact is moved to the exact destination path.
In the first two branches, an existing file at the computed target with
overwrite false makes relocation fail with an already-exists error and
move nothing (the filesystem is unchanged). -/
theorem movepdf_destination_policy (fs : FS) (d : String) (ow : Bool)
    (mainfile desktop : String) :
    (fs.isfile (joinpath desktop (artifactname mainfile)) = true → ow = false →
        movepdf fs none ow mainfile desktop =
          .alreadyExistsError (joinpath desktop (artifactname mainfile)) ∧
        applyMove fs (movepdf fs none ow mainfile desktop) = fs) ∧
    (¬(fs.isfile (joinpath desktop (artifactname mainfile)) = true ∧ ow = false) →
        movepdf fs none ow mainfile desktop =
          .moved (artifactname mainfile) (joinpath desktop (artifactname mainfile))) ∧
    (d ≠ "" → fs.isdir d = true →
        (fs.isfile (joinpath d (artifactname mainfile)) = true → ow = false →
          movepdf fs (some d) ow mainfile desktop =
            .alreadyExistsError (joinpath d (artifactname mainfile)) ∧
          applyMove fs (movepdf fs (some d) ow mainfile desktop) = fs) ∧
        (¬(fs.isfile (joinpath d (artifactname mainfile)) = true ∧ ow = false) →
          movepdf fs (some d) ow mainfile desktop =
            .moved (artifactname mainfile) (joinpath d (artifactname mainfile)))) ∧
    (d ≠ "" → fs.isdir d = false → fs.isfile d = true → ow = true →
        movepdf fs (some d) ow mainfile desktop =
          .moved (pythonReplace mainfile ".tex" ".pdf") d) ∧
    (d ≠ "" → fs.isdir d = false → fs.isfile d = true → ow = false →
        movepdf fs (some d) ow mainfile desktop = .alreadyExistsError d ∧
        applyMove fs (movepdf fs (some d) ow mainfile desktop) = fs) ∧
    (d ≠ "" → fs.isdir d = false → fs.isfile d = false →
        movepdf fs (some d) ow mainfile desktop =
          .moved (pythonReplace mainfile ".tex" ".pdf") d) := by
  refine ⟨?_, ?_, ?_, ?_, ?_, ?_⟩
  · intro hf how
    have hres : movepdf fs none ow mainfile desktop =
        .alreadyExistsError (joinpath desktop (artifactname mainfile)) := by
      simp [movepdf, hf, how]
    exact ⟨hres, by rw [hres]; rfl⟩
  · intro hno
    cases hf : fs.isfile (joinpath desktop (artifactname mainfile)) with
    | false => simp [movepdf, hf]
    | true =>
      cases how : ow with
      | false => exact absurd ⟨hf, how⟩ hno
      | true => simp [movepdf, hf, how]
  · intro hd hdir
    constructor
    · intro hf how
      have hres : movepdf fs (some d) ow mainfile desktop =
          .alreadyExistsError (joinpath d (artifactname mainfile)) := by
        simp [movepdf, hd, hdir, hf, how]
      exact ⟨hres, by rw [hres]; rfl⟩
    · intro hno
      cases hf : fs.isfile (joinpath d (artifactname mainfile)) with
      | false => simp [movepdf, hd, hdir, hf]
      | true =>
        cases how : ow with
        | false => exact absurd ⟨hf, how⟩ hno
        | true => simp [movepdf, hd, hdir, hf, how]
  · intro hd hdir hfile how
    simp [movepdf, hd, hdir, hfile, how]
  · intro hd hdir hfile how
    have hres : movepdf fs (some d) ow mainfile desktop = .alreadyExistsError d := by
      simp [movepdf, hd, hdir, hfile, how]
    exact ⟨hres, by rw [hres]; rfl⟩
  · intro hd hdir hfile
    simp [movepdf, hd, hdir, hfile]

/-- C2 (witness), at the existing-directory branch with a pre-existing
file at the computed target and overwrite off. -/
theorem movepdf_destination_policy_witness :
    movepdf fsDir (some "/outdir") false "/ws/pytex_doc.tex" "/Users/simon/Desktop" =
      .alreadyExistsError (joinpath "/outdir" (artifactname "/ws/pytex_doc.tex")) ∧
    applyMove fsDir (movepdf fsDir (some "/outdir") false "/ws/pytex_doc.tex"
        "/Users/simon/Desktop") = fsDir :=
  ((movepdf_destination_policy fsDir "/outdir" false "/ws/pytex_doc.tex"
    "/Users/simon/Desktop").2.2.1 (by decide) (by rfl)).1 (by rfl) rfl

/-- C3 (counterexample).  The claim states that every caller-supplied
font-size or column token is removed and that exactly one column token is
present afterwards.  This is false: the `_parseoptions` loop calls
`list.remove` once per token, which deletes only the first occurrence, so
with the caller options `["onecolumn", "onecolumn"]` the result keeps a
stray `"onecolumn"` and holds two column tokens. -/
theorem parseoptions_counterexample :
    parseoptions ["onecolumn", "onecolumn"] 11 1 ≠
      (["onecolumn", "onecolumn"].filter (fun o => !(sizeColTokens.contains o))
        ++ [toString (11 : Int) ++ "pt", "onecolumn"], none) ∧
    (parseoptions ["onecolumn", "onecolumn"] 11 1).1.count "onecolumn" = 2 := by
  decide

/-- C3 (amended).  During preamble assembly the effective document-class
options equal the caller-supplied options with the FIRST occurrence of
each font-size and column token removed — equivalently, when each such
token occurs at most once, with every occurrence removed — followed by the
configured font-size token and the column token for a column count of 1
or 2; any other column count raises the configuration `ValueError` (and
`_parseoptions` itself touches no filesystem state). -/
theorem parseoptions_effective_options (options : List String) (fontsize columns : Int)
    (h : ∀ t ∈ sizeColTokens, options.count t ≤ 1) :
    (columns = 1 → parseoptions options fontsize columns =
      (options.filter (fun o => !(sizeColTokens.contains o))
        ++ [toString fontsize ++ "pt", "onecolumn"], none)) ∧
    (columns = 2 → parseoptions options fontsize columns =
      (options.filter (fun o => !(sizeColTokens.contains o))
        ++ [toString fontsize ++ "pt", "twocolumn"], none)) ∧
    (columns ≠ 1 → columns ≠ 2 →
      parseoptions options fontsize columns =
        (options.filter (fun o => !(sizeColTokens.contains o)) ++ [toString fontsize ++ "pt"],
         some ("Unrecognized column specifier: " ++ toString columns))) := by
  refine ⟨?_, ?_, ?_⟩
  · intro h1
    simp [parseoptions, h1, stripTokens_eq_filter options h]
  · intro h2
    have h1 : columns ≠ 1 := by omega
    simp [parseoptions, h1, h2, stripTokens_eq_filter options h]
  · intro h1 h2
    simp [parseoptions, h1, h2, stripTokens_eq_filter options h]

/-- C3 (witness for the amended theorem), on the default option list. -/
theorem parseoptions_effective_options_witness :
    (∀ t ∈ sizeColTokens, DEFAULT_OPTIONS.count t ≤ 1) ∧
    parseoptions DEFAULT_OPTIONS 11 1 =
      (DEFAULT_OPTIONS.filter (fun o => !(sizeColTokens.contains o))
        ++ [toString (11 : Int) ++ "pt", "onecolumn"], none) :=
  ⟨by decide, (parseoptions_effective_options DEFAULT_OPTIONS 11 1 (by decide)).1 rfl⟩

/-- C4.  Argument rendering is a single pure rule: a bare label renders as
`\x7blabel\x7d`, an argument with options renders as the comma-joined options in
input order between square brackets followed by `\x7blabel\x7d`, and this same
`formatarg` rule is what the title and package-inclusion emissions use.
Determinism and byte-for-byte reproducibility hold because `formatarg` is
a pure function of the argument value alone. -/
theorem formatarg_single_rule (label v : String) (opts : List String) (t p : Arg) :
    formatarg (Arg.bare label) = "\x7b" ++ label ++ "\x7d" ∧
    formatarg (Arg.withOptions v opts) =
      "[" ++ String.intercalate ", " opts ++ "]\x7b" ++ v ++ "\x7d" ∧
    renderCall (EmitterCall.title t) = "\\title" ++ formatarg t ++ "\n" ∧
    renderCall (EmitterCall.usepackage p) = "\\usepackage" ++ formatarg p ++ "\n" ∧
    renderCall (EmitterCall.usepackages [p]) = "\\usepackage" ++ formatarg p ++ "\n" :=
  ⟨rfl, rfl, rfl, rfl, rfl⟩

/-- C5 (counterexample).  The claim states that the effective
configuration of a later default-constructed instance is unaffected by an
earlier use.  This is false: an earlier use with `fullpage=True` inserts
`"fullpage"` into the shared `DEFAULT_PACKAGES` list in place, so the
later default-constructed use sees it, and its emitted preamble differs
from that of a use against pristine defaults. -/
theorem shared_defaults_counterexample :
    Arg.bare "fullpage" ∈
      (writepreamble cfgPlain
        (writepreamble cfgFullpage DEFAULT_OPTIONS DEFAULT_PACKAGES).newOptions
        (writepreamble cfgFullpage DEFAULT_OPTIONS DEFAULT_PACKAGES).newPackages).newPackages ∧
    Arg.bare "fullpage" ∉
      (writepreamble cfgPlain DEFAULT_OPTIONS DEFAULT_PACKAGES).newPackages ∧
    (writepreamble cfgPlain
        (writepreamble cfgFullpage DEFAULT_OPTIONS DEFAULT_PACKAGES).newOptions
        (writepreamble cfgFullpage DEFAULT_OPTIONS DEFAULT_PACKAGES).newPackages).text ≠
      (writepreamble cfgPlain DEFAULT_OPTIONS DEFAULT_PACKAGES).text := by
  decide

/-- C5 (amended).  The baseline defaults are a shared mutable list, not a
per-instance copy: after any earlier default-constructed use with
`fullpage=True` (and a valid column count), every later
default-constructed use finds `"fullpage"` in its effective package list,
whereas a use against pristine defaults with `fullpage=False` does not.
Workspace and temp-file independence is provided by the `tempfile` module
and is outside this model. -/
theorem shared_defaults_interference (cfg1 cfg2 : Config)
    (h1 : cfg1.fullpage = true) (h2 : cfg1.columns = 1 ∨ cfg1.columns = 2) :
    Arg.bare "fullpage" ∈
      (writepreamble cfg2
        (writepreamble cfg1 DEFAULT_OPTIONS DEFAULT_PACKAGES).newOptions
        (writepreamble cfg1 DEFAULT_OPTIONS DEFAULT_PACKAGES).newPackages).newPackages ∧
    (cfg2.fullpage = false →
      Arg.bare "fullpage" ∉
        (writepreamble cfg2 DEFAULT_OPTIONS DEFAULT_PACKAGES).newPackages) := by
  constructor
  · apply writepreamble_mem_newPackages
    obtain ⟨o, hp⟩ :
        ∃ o, parseoptions DEFAULT_OPTIONS cfg1.fontsize cfg1.columns = (o, none) := by
      rcases hpe : parseoptions DEFAULT_OPTIONS cfg1.fontsize cfg1.columns with ⟨o, e⟩
      have h0 := parseoptions_ok_of_columns DEFAULT_OPTIONS cfg1.fontsize cfg1.columns h2
      rw [hpe] at h0
      exact ⟨o, by simpa using h0⟩
    unfold writepreamble
    rw [hp]
    dsimp only
    rw [if_pos (by rw [h1]; decide)]
    exact List.mem_cons_self _ _
  · intro hf
    rw [writepreamble_newPackages_no_fullpage cfg2 _ _ hf]
    decide

/-- C5 (witness for the amended theorem), with `cfgFullpage` then
`cfgPlain`. -/
theorem shared_defaults_interference_witness :
    cfgFullpage.fullpage = true ∧ (cfgFullpage.columns = 1 ∨ cfgFullpage.columns = 2) ∧
    (Arg.bare "fullpage" ∈
      (writepreamble cfgPlain
        (writepreamble cfgFullpage DEFAULT_OPTIONS DEFAULT_PACKAGES).newOptions
        (writepreamble cfgFullpage DEFAULT_OPTIONS DEFAULT_PACKAGES).newPackages).newPackages ∧
     (cfgPlain.fullpage = false →
      Arg.bare "fullpage" ∉
        (writepreamble cfgPlain DEFAULT_OPTIONS DEFAULT_PACKAGES).newPackages)) :=
  ⟨rfl, Or.inl rfl,
   shared_defaults_interference cfgFullpage cfgPlain rfl (Or.inl rfl)⟩

/-- C6.  For any sequence of supported emitter calls, the final stream
text is the initial text followed by the concatenation, in call order, of
the deterministic rendering of each call, and no error is raised: each
call only appends and none modifies, reorders, or merges the text of
another. -/
theorem runCalls_appends_in_order (stream : String) (calls : List EmitterCall)
    (h : ∀ c ∈ calls, supported c = true) :
    runCalls stream calls = (stream ++ concatTexts (calls.map renderCall), none) := by
  induction calls generalizing stream with
  | nil => simp [runCalls, concatTexts]
  | cons c cs ih =>
    rw [runCalls, emitCall_of_supported c (h c (List.mem_cons_self c cs))]
    dsimp only
    rw [ih (stream ++ renderCall c) (fun d hd => h d (List.mem_cons_of_mem c hd))]
    simp [concatTexts, String.append_assoc]

/-- C6 (witness), on a concrete four-call body. -/
theorem runCalls_appends_in_order_witness :
    (∀ c ∈ exampleCalls, supported c = true) ∧
    runCalls "" exampleCalls = ("" ++ concatTexts (exampleCalls.map renderCall), none) :=
  ⟨by decide, runCalls_appends_in_order "" exampleCalls (by decide)⟩

/-- C7.  The unsupported emitter operations `figure`, `tabular` and
`includeonly` raise their `NotImplementedError` immediately on the call,
whatever the stream already holds and whatever calls would follow, and
append nothing to the stream. -/
theorem unsupported_calls_raise (stream : String) (names : List String)
    (rest : List EmitterCall) :
    runCalls stream (.figure :: rest) = (stream, some "Figure this out") ∧
    runCalls stream (.tabular :: rest) = (stream, some "Figure this out") ∧
    runCalls stream (.includeonly names :: rest) =
      (stream, some "includeonly not yet implemented") ∧
    supported .figure = false ∧ supported .tabular = false ∧
    supported (.includeonly names) = false :=
  ⟨rfl, rfl, rfl, rfl, rfl, rfl⟩

/-- C8.  `_compilepdf` changes the working directory to the workspace and
then invokes `subprocess.call(["pdflatex", mainfile])` exactly `ncompile`
times sequentially, each invocation running in the workspace with the
source file path as the sole argument of the tool; the returned exit
statuses are discarded, so the outcome is independent of them. -/
theorem compilepdf_trace (tmpdir mainfile : String) (n : Nat) (s1 s2 : Nat → Int) :
    (compilepdf tmpdir mainfile n s1).2 =
      List.replicate n (Invocation.mk ["pdflatex", mainfile] tmpdir) ∧
    (compilepdf tmpdir mainfile n s1).1 = tmpdir ∧
    compilepdf tmpdir mainfile n s1 = compilepdf tmpdir mainfile n s2 := by
  refine ⟨?_, rfl, rfl⟩
  simp [compilepdf, List.map_const', List.length_range]

/-- C9.  After every `__exit__`, successful or raising, the process
working directory is the workspace path: `_compilepdf` calls `os.chdir`
into the workspace and nothing afterwards restores the previous
directory; on the successful path the workspace has moreover just been
deleted, so the working directory names a directory that no longer
exists. -/
theorem docExit_cwd_in_workspace (cfg : Config) (tmpdir mainfile desktop : String)
    (es : Nat → Int) (s : DocState) :
    (∀ s', docExit cfg tmpdir mainfile desktop es s = .ok s' →
        s'.cwd = tmpdir ∧ s'.tmpdirExists = false) ∧
    (∀ msg s', docExit cfg tmpdir mainfile desktop es s = .error (msg, s') →
        s'.cwd = tmpdir) := by
  constructor
  · intro s' h
    unfold docExit at h
    rcases hm : movepdf s.fs cfg.dst cfg.overwrite mainfile desktop with ⟨src, tgt⟩ | p
    · rw [hm] at h
      dsimp only at h
      cases h
      exact ⟨rfl, rfl⟩
    · rw [hm] at h
      exact absurd h (by simp)
  · intro msg s' h
    unfold docExit at h
    rcases hm : movepdf s.fs cfg.dst cfg.overwrite mainfile desktop with ⟨src, tgt⟩ | p
    · rw [hm] at h
      exact absurd h (by simp)
    · rw [hm] at h
      dsimp only at h
      cases h
      rfl

/-- C9 (witness), at a concrete successful exit. -/
theorem docExit_cwd_in_workspace_witness :
    sOkFresh.cwd = "/ws" ∧ sOkFresh.tmpdirExists = false :=
  (docExit_cwd_in_workspace cfgFresh "/ws" "/ws/pytex_d.tex" "/Users/simon/Desktop"
    (fun _ => 0) stOpen2).1 sOkFresh (by rfl)

/-- C10.  With a column count other than 1 or 2, `__enter__` raises the
configuration error only after the temporary directory and the temporary
source file have been created, and the Lifecycle Manager never removes
them in that case: its teardown lives in `__exit__`, which Python does not
invoke when `__enter__` raises, so after the failed scoped use the
workspace still exists. -/
theorem enter_error_workspace_persists (cfg : Config) (options : List String)
    (packages : List Arg) (h1 : cfg.columns ≠ 1) (h2 : cfg.columns ≠ 2) :
    (docEnter cfg options packages).err =
      some ("Unrecognized column specifier: " ++ toString cfg.columns) ∧
    (docEnter cfg options packages).tmpdirExists = true ∧
    (docEnter cfg options packages).mainfileExists = true ∧
    ∀ (bodyCalls : List EmitterCall) (tmpdir mainfile desktop initialCwd : String)
      (fs : FS) (es : Nat → Int),
      (withDocument cfg options packages bodyCalls tmpdir mainfile desktop initialCwd
          fs es).1.tmpdirExists = true ∧
      (withDocument cfg options packages bodyCalls tmpdir mainfile desktop initialCwd
          fs es).2 =
        some ("Unrecognized column specifier: " ++ toString cfg.columns) := by
  have herr : (writepreamble cfg options packages).err =
      some ("Unrecognized column specifier: " ++ toString cfg.columns) := by
    unfold writepreamble
    rw [parseoptions_err_of_columns options cfg.fontsize cfg.columns h1 h2]
  have he : (docEnter cfg options packages).err =
      some ("Unrecognized column specifier: " ++ toString cfg.columns) := herr
  refine ⟨he, rfl, rfl, ?_⟩
  intro bodyCalls tmpdir mainfile desktop initialCwd fs es
  unfold withDocument docEnter
  dsimp only
  rw [herr]
  exact ⟨rfl, rfl⟩

/-- C10 (witness), with the invalid column count 3 on the default lists. -/
theorem enter_error_workspace_persists_witness :
    cfgBadColumns.columns ≠ 1 ∧ cfgBadColumns.columns ≠ 2 ∧
    (docEnter cfgBadColumns DEFAULT_OPTIONS DEFAULT_PACKAGES).err =
      some ("Unrecognized column specifier: " ++ toString cfgBadColumns.columns) ∧
    (withDocument cfgBadColumns DEFAULT_OPTIONS DEFAULT_PACKAGES [] "/ws" "/ws/p.tex"
        "/d" "/home" ⟨[], []⟩ (fun _ => 0)).1.tmpdirExists = true :=
  ⟨by decide, by decide,
   (enter_error_workspace_persists cfgBadColumns DEFAULT_OPTIONS DEFAULT_PACKAGES
      (by decide) (by decide)).1,
   ((enter_error_workspace_persists cfgBadColumns DEFAULT_OPTIONS DEFAULT_PACKAGES
      (by decide) (by decide)).2.2.2 [] "/ws" "/ws/p.tex" "/d" "/home" ⟨[], []⟩
      (fun _ => 0)).1⟩
